import Mathlib

/-!
Verification development for the GPX map-generation pipeline
(`GenererCarte.py` and `photo_utils/map_generator.py`).

Numeric values are modelled with `ℚ` (the Python code uses IEEE floats;
the claims under scrutiny are about the exact arithmetic structure of the
formulas, which `ℚ` captures).  `floor(log2 x)` is modelled with
Mathlib's `Int.log 2`, which satisfies `2 ^ Int.log 2 x ≤ x < 2 ^ (Int.log 2 x + 1)`
for `x > 0`, i.e. it is exactly the floor of the base-2 logarithm.
Python's `int()` truncates toward zero rather than flooring, but after the
`max(0, min(zoom, 18))` clamp the two agree (negative arguments clamp to 0
either way), so modelling with the floor `Int.log` is faithful to the
clamped result.
-/

namespace Photos

/-- The constant `156543.03` from `calculate_zoom_for_extent`, as a rational. -/
def zoomConst : ℚ := 156543.03

/-- Embedding of `calculate_zoom_for_extent` (GenererCarte.py lines 32-38,
map_generator.py lines 43-50):
`zoom_lon = log2(156543.03 * width_px / lon_length)`,
`zoom_lat = log2(156543.03 * height_px / lat_length)`,
`zoom = int(min(zoom_lon, zoom_lat))`, then clamped by
`max(0, min(zoom, 18))`.  Because floor commutes with `min`, the floor is
applied to each term here. -/
def calculate_zoom_for_extent (xmin ymin xmax ymax width_px height_px : ℚ) : ℤ :=
  let lon_length := xmax - xmin
  let lat_length := ymax - ymin
  let zoom_lon := Int.log 2 (zoomConst * width_px / lon_length)
  let zoom_lat := Int.log 2 (zoomConst * height_px / lat_length)
  max 0 (min (min zoom_lon zoom_lat) 18)

/-- The zoom formula as the claim words it: `width_px` appears in BOTH the
longitude and the latitude terms.  This is the claim-side definition used to
compare with the code, which uses `height_px` in the latitude term. -/
def claimed_zoom (xmin ymin xmax ymax width_px : ℚ) : ℤ :=
  let lon_length := xmax - xmin
  let lat_length := ymax - ymin
  let zoom_lon := Int.log 2 (zoomConst * width_px / lon_length)
  let zoom_lat := Int.log 2 (zoomConst * width_px / lat_length)
  max 0 (min (min zoom_lon zoom_lat) 18)

/-- Embedding of `adjust_bounds_to_ratio` (GenererCarte.py lines 40-75):
if the current width/height ratio exceeds the target the height is grown
symmetrically about the vertical center; if it is below the target the width
is grown symmetrically about the horizontal center; otherwise the box is
unchanged.  Returns `(xmin, ymin, xmax, ymax)`. -/
def adjust_bounds_to_ratio (xmin ymin xmax ymax target_ratio : ℚ) : ℚ × ℚ × ℚ × ℚ :=
  let current_width := xmax - xmin
  let current_height := ymax - ymin
  let current_ratio := current_width / current_height
  let center_x := (xmin + xmax) / 2
  let center_y := (ymin + ymax) / 2
  if current_ratio > target_ratio then
    let new_height := current_width / target_ratio
    (xmin, center_y - new_height / 2, xmax, center_y + new_height / 2)
  else if current_ratio < target_ratio then
    let new_width := current_height * target_ratio
    (center_x - new_width / 2, ymin, center_x + new_width / 2, ymax)
  else
    (xmin, ymin, xmax, ymax)

/-- A GPX track point: longitude, latitude and an optional timestamp.  The
timestamp models the France-naive civil time that the code obtains from
`p.time.astimezone(tz_france).replace(tzinfo=None)` (as an integer count of
seconds); `none` models a point whose `time` attribute is `None`, which is
the only falsy value a point time can have in the code's `if p.time:` test. -/
structure GPXPoint where
  longitude : ℚ
  latitude : ℚ
  time : Option ℤ

/-- A GPX track segment: an ordered list of points. -/
structure GPXSegment where
  points : List GPXPoint

/-- A GPX track: an ordered list of segments. -/
structure GPXTrack where
  segments : List GPXSegment

/-- A parsed GPX file: an ordered list of tracks. -/
structure GPX where
  tracks : List GPXTrack

/-- All points of a GPX file in the iteration order of the nested loops of
`generate_map` (tracks, then segments, then points). -/
def GPX.allPoints (g : GPX) : List GPXPoint :=
  (g.tracks.flatMap fun t => t.segments).flatMap fun s => s.points

/-- One iteration of the point loop of `generate_map` (map_generator.py lines
294-306, GenererCarte.py lines 375-391): a point is considered only when it
has a time (`if p.time:`); then, if either window bound is `None` the point is
appended unconditionally, and otherwise it is appended exactly when its
France-naive time lies in the inclusive window.  Returns the appended
`(longitude, latitude)` pair, or `none` when the point is skipped. -/
def filterPoint (start_time end_time : Option ℤ) (p : GPXPoint) : Option (ℚ × ℚ) :=
  match p.time with
  | none => none
  | some t =>
    match start_time, end_time with
    | some s, some e =>
      if s ≤ t ∧ t ≤ e then some (p.longitude, p.latitude) else none
    | _, _ => some (p.longitude, p.latitude)

/-- The `points` list built by `generate_map` from the parsed GPX file and the
(naive-ized) window bounds. -/
def loadPoints (start_time end_time : Option ℤ) (g : GPX) : List (ℚ × ℚ) :=
  g.allPoints.filterMap (filterPoint start_time end_time)

/-- The insufficient-data check of `generate_map` (map_generator.py lines
308-309, GenererCarte.py lines 393-394): fewer than 2 surviving points raise
`ValueError`, modelled as `Except.error`; otherwise the pipeline proceeds with
the point list. -/
def generateMapPoints (start_time end_time : Option ℤ) (g : GPX) :
    Except String (List (ℚ × ℚ)) :=
  let points := loadPoints start_time end_time g
  if points.length < 2 then
    Except.error "Pas assez de points pour generer une trace."
  else
    Except.ok points

/-- The bounding-box containment test applied to a projected city coordinate in
`generate_map` (GenererCarte.py line 437, map_generator.py line 344):
`(xmin <= pt.x <= xmax) and (ymin <= pt.y <= ymax)`. -/
def is_contained (xmin ymin xmax ymax x y : ℚ) : Bool :=
  decide (xmin ≤ x ∧ x ≤ xmax) && decide (ymin ≤ y ∧ y ≤ ymax)

/-- The city filtering loop of `generate_map` (GenererCarte.py lines 428-443):
each geocoded and re-projected city coordinate is kept exactly when it is
contained in the buffered bounds `buffered.total_bounds` computed at line 419,
which in GenererCarte.py is BEFORE the 4:3 ratio adjustment of line 448.
A city is a `(display_name, projected_x, projected_y)` triple. -/
def retainedCities (xmin ymin xmax ymax : ℚ) (cities : List (String × ℚ × ℚ)) :
    List (String × ℚ × ℚ) :=
  cities.filter fun c => is_contained xmin ymin xmax ymax c.2.1 c.2.2

/-- The final render extent of `GenererCarte.generate_map`: the buffered bounds
adjusted to the 4:3 ratio (line 448), which is what `ax.set_xlim`/`set_ylim`
receive. -/
def finalExtent (xmin ymin xmax ymax : ℚ) : ℚ × ℚ × ℚ × ℚ :=
  adjust_bounds_to_ratio xmin ymin xmax ymax (4 / 3)

/-- A usable reference image for `set_exif_date_piexif` (an existing `.jpg` or
`.jpeg` file): its optional embedded `DateTimeOriginal` and its file creation
time, both as integer timestamps. -/
structure RefImage where
  exifDate : Option ℤ
  ctime : ℤ

/-- Embedding of `set_exif_date_piexif` (map_generator.py lines 106-141).  With
a usable reference image, the embedded date is the image's `DateTimeOriginal`
(falling back to the file creation time) minus 10 seconds; otherwise, with a
`start_time`, the embedded date is `start_time` itself; with neither, the
function returns without embedding anything.  The result is the optional
`(timestamp, rating)` pair written into the output image; the rating is the
constant 5. -/
def set_exif_date_piexif (ref : Option RefImage) (start_time : Option ℤ) :
    Option (ℤ × ℕ) :=
  match ref with
  | some r => some (r.exifDate.getD r.ctime - 10, 5)
  | none =>
    match start_time with
    | some st => some (st, 5)
    | none => none

/-- The metadata embedded by `generate_map` (map_generator.py line 396): the
call `set_exif_date_piexif(output_file, ref_image, log_callback, start_time)`
passes the caller-supplied window start bound, not anything derived from the
track, so the GPX argument is unused. -/
def embeddedMetadata (start_time end_time : Option ℤ) (ref : Option RefImage)
    (g : GPX) : Option (ℤ × ℕ) :=
  set_exif_date_piexif ref start_time

/-- Modelled from the claim's words (no code computes this value): the time of
the first point surviving the time filter, i.e. the track's start time. -/
def firstSurvivingTime (start_time end_time : Option ℤ) (g : GPX) : Option ℤ :=
  ((g.allPoints.filter fun p => (filterPoint start_time end_time p).isSome).head?).bind
    GPXPoint.time

/-- The Nominatim queries `geocode_city` can issue. -/
inductive GeoQuery
  | bounded
  | global
deriving DecidableEq

/-- The outcome of one HTTP geocoding request: `Except.error` models any
exception raised while performing or parsing it (network error, non-2xx status
via `raise_for_status`, JSON parse failure); `Except.ok` carries the parsed
list of candidate `(lon, lat)` results. -/
abbrev GeoResponse := Except Unit (List (ℚ × ℚ))

/-- Embedding of `geocode_city` (map_generator.py lines 170-196, GenererCarte.py
lines 173-199), parameterized by the two possible request outcomes.  The
bounded (viewbox) request is issued first; if it returns a non-empty list the
first result is returned; if it returns an empty list the unconstrained global
request is issued and its first result (if any) returned; any exception is
caught and `None` returned.  The second component records which requests were
issued, in order. -/
def geocode_city (boundedResp globalResp : GeoResponse) :
    Option (ℚ × ℚ) × List GeoQuery :=
  match boundedResp with
  | Except.error _ => (none, [GeoQuery.bounded])
  | Except.ok [] =>
    match globalResp with
    | Except.error _ => (none, [GeoQuery.bounded, GeoQuery.global])
    | Except.ok [] => (none, [GeoQuery.bounded, GeoQuery.global])
    | Except.ok (c :: _) => (some c, [GeoQuery.bounded, GeoQuery.global])
  | Except.ok (c :: _) => (some c, [GeoQuery.bounded])

/-- The arrow spacing passed to `draw_arrows` at its call site (map_generator.py
line 355, GenererCarte.py line 454): `1000 / 2 ** (zoom - 12)`. -/
def arrowSpacing (zoom : ℤ) : ℚ := 1000 / 2 ^ (zoom - 12)

/-- Embedding of the index-selection loop of `draw_arrows` (map_generator.py
lines 199-211), applied to the list of cumulative distances along the polyline
(`cumdist[i]` is the distance from vertex 0 to vertex `i`, computed by the code
with numpy from the projected coordinates; `len(cumdist) = len(coords)`).
`indices` starts as `[0]` with `last_d = 0`; scanning `(i, d)` over `cumdist`,
`i` is emitted whenever `d - last_d >= min_spacing` (updating `last_d` to `d`);
finally `len(coords) - 1` is appended unconditionally. -/
def draw_arrows_indices (cumdist : List ℚ) (min_spacing : ℚ) : List ℕ :=
  let loop := cumdist.enum.foldl
    (fun (st : List ℕ × ℚ) (p : ℕ × ℚ) =>
      if p.2 - st.2 ≥ min_spacing then (st.1 ++ [p.1], p.2) else st)
    ([0], 0)
  loop.1 ++ [cumdist.length - 1]

/-- The selection exactly as the claim words it, with a STRICT "exceeds"
comparison instead of the code's `>=`.  Claim-side definition, for comparison
with `draw_arrows_indices`. -/
def claimed_arrow_indices (cumdist : List ℚ) (min_spacing : ℚ) : List ℕ :=
  let loop := cumdist.enum.foldl
    (fun (st : List ℕ × ℚ) (p : ℕ × ℚ) =>
      if p.2 - st.2 > min_spacing then (st.1 ++ [p.1], p.2) else st)
    ([0], 0)
  loop.1 ++ [cumdist.length - 1]

/-- The greedy walk of the amended claim, written as a recursion: scan the
enumerated cumulative distances, remembering the cumulative distance at the
last emitted vertex, and emit an index whenever the accumulated distance since
the last emission meets or exceeds the spacing. -/
def specArrowWalk (min_spacing : ℚ) : List (ℕ × ℚ) → ℚ → List ℕ
  | [], _ => []
  | p :: rest, last_d =>
    if p.2 - last_d ≥ min_spacing then p.1 :: specArrowWalk min_spacing rest p.2
    else specArrowWalk min_spacing rest last_d

/-! ## Helper lemmas -/

/-- Concrete values of `Int.log 2` follow from a power-of-two bracketing. -/
theorem int_log2_eq_of_bounds {r : ℚ} {k : ℤ} (hr : 0 < r)
    (h1 : (2 : ℚ) ^ k ≤ r) (h2 : r < (2 : ℚ) ^ (k + 1)) : Int.log 2 r = k := by
  have ha : k ≤ Int.log 2 r := by
    rw [← Int.zpow_le_iff_le_log (by norm_num) hr]
    exact_mod_cast h1
  have hb : Int.log 2 r < k + 1 := by
    rw [← Int.lt_zpow_iff_log_lt (by norm_num) hr]
    exact_mod_cast h2
  omega

/-- The minimum of the two per-axis integer logs is the floor of the base-2
logarithm of the minimum of the two axis ratios. -/
theorem min_int_log2_bounds {A B : ℚ} (hA : 0 < A) (hB : 0 < B) :
    (2 : ℚ) ^ min (Int.log 2 A) (Int.log 2 B) ≤ min A B ∧
      min A B < (2 : ℚ) ^ (min (Int.log 2 A) (Int.log 2 B) + 1) := by
  have h2A : (2 : ℚ) ^ Int.log 2 A ≤ A := by
    exact_mod_cast Int.zpow_log_le_self (by norm_num) hA
  have h2B : (2 : ℚ) ^ Int.log 2 B ≤ B := by
    exact_mod_cast Int.zpow_log_le_self (by norm_num) hB
  have hA2 : A < (2 : ℚ) ^ (Int.log 2 A + 1) := by
    exact_mod_cast Int.lt_zpow_succ_log_self (by norm_num) A
  have hB2 : B < (2 : ℚ) ^ (Int.log 2 B + 1) := by
    exact_mod_cast Int.lt_zpow_succ_log_self (by norm_num) B
  constructor
  · refine le_min ?_ ?_
    · exact le_trans (zpow_le_zpow_right₀ (by norm_num) (min_le_left _ _)) h2A
    · exact le_trans (zpow_le_zpow_right₀ (by norm_num) (min_le_right _ _)) h2B
  · rcases le_total (Int.log 2 A) (Int.log 2 B) with h | h
    · rw [min_eq_left h]
      exact lt_of_le_of_lt (min_le_left A B) hA2
    · rw [min_eq_right h]
      exact lt_of_le_of_lt (min_le_right A B) hB2

/-! ## Claim C1 -/

/-- C1, counterexample to the claim as stated: on the square extent
`(0, 0, 500000, 500000)` the code returns zoom 9 because its latitude term
uses the canvas height 2700, while the claim's formula (canvas width 3600 in
both terms) gives 10. -/
theorem calculate_zoom_uses_height_for_lat_cex :
    calculate_zoom_for_extent 0 0 500000 500000 3600 2700 = 9 ∧
    claimed_zoom 0 0 500000 500000 3600 = 10 ∧
    calculate_zoom_for_extent 0 0 500000 500000 3600 2700 ≠
      claimed_zoom 0 0 500000 500000 3600 := by
  have hA : Int.log 2 (zoomConst * 3600 / ((500000 : ℚ) - 0)) = 10 := by
    refine int_log2_eq_of_bounds (by norm_num [zoomConst]) ?_ ?_ <;>
      norm_num [zoomConst]
  have hB : Int.log 2 (zoomConst * 2700 / ((500000 : ℚ) - 0)) = 9 := by
    refine int_log2_eq_of_bounds (by norm_num [zoomConst]) ?_ ?_ <;>
      norm_num [zoomConst]
  refine ⟨?_, ?_, ?_⟩
  · show max 0 (min (min (Int.log 2 (zoomConst * 3600 / ((500000 : ℚ) - 0)))
      (Int.log 2 (zoomConst * 2700 / ((500000 : ℚ) - 0)))) 18) = 9
    rw [hA, hB]; rfl
  · show max 0 (min (min (Int.log 2 (zoomConst * 3600 / ((500000 : ℚ) - 0)))
      (Int.log 2 (zoomConst * 3600 / ((500000 : ℚ) - 0)))) 18) = 10
    rw [hA]; rfl
  · show max 0 (min (min (Int.log 2 (zoomConst * 3600 / ((500000 : ℚ) - 0)))
      (Int.log 2 (zoomConst * 2700 / ((500000 : ℚ) - 0)))) 18) ≠
      max 0 (min (min (Int.log 2 (zoomConst * 3600 / ((500000 : ℚ) - 0)))
        (Int.log 2 (zoomConst * 3600 / ((500000 : ℚ) - 0)))) 18)
    rw [hA, hB]; decide

/-- C1 (amended): for every non-degenerate extent, the zoom returned by
`calculate_zoom_for_extent` at the fixed 3600 by 2700 canvas is
`floor(min(log2(156543.03 * 3600 / lon_extent), log2(156543.03 * 2700 / lat_extent)))`
clamped to `[0, 18]`; the latitude term uses the canvas HEIGHT 2700, not the
width as the original claim says.  The first conjunct ties the code's result to
the clamp of the minimum of the two integer logs; the two inequalities state
that this minimum is exactly the floor of the base-2 logarithm of the smaller
axis ratio, i.e. the floor of the minimum of the two real logarithms. -/
theorem calculate_zoom_floor_min_log_clamped (xmin ymin xmax ymax : ℚ)
    (hx : xmin < xmax) (hy : ymin < ymax) :
    calculate_zoom_for_extent xmin ymin xmax ymax 3600 2700 =
      max 0 (min (min (Int.log 2 (zoomConst * 3600 / (xmax - xmin)))
        (Int.log 2 (zoomConst * 2700 / (ymax - ymin)))) 18) ∧
    (2 : ℚ) ^ min (Int.log 2 (zoomConst * 3600 / (xmax - xmin)))
        (Int.log 2 (zoomConst * 2700 / (ymax - ymin))) ≤
      min (zoomConst * 3600 / (xmax - xmin)) (zoomConst * 2700 / (ymax - ymin)) ∧
    min (zoomConst * 3600 / (xmax - xmin)) (zoomConst * 2700 / (ymax - ymin)) <
      (2 : ℚ) ^ (min (Int.log 2 (zoomConst * 3600 / (xmax - xmin)))
        (Int.log 2 (zoomConst * 2700 / (ymax - ymin))) + 1) := by
  have hA : (0 : ℚ) < zoomConst * 3600 / (xmax - xmin) :=
    div_pos (by norm_num [zoomConst]) (sub_pos.mpr hx)
  have hB : (0 : ℚ) < zoomConst * 2700 / (ymax - ymin) :=
    div_pos (by norm_num [zoomConst]) (sub_pos.mpr hy)
  exact ⟨rfl, (min_int_log2_bounds hA hB).1, (min_int_log2_bounds hA hB).2⟩

/-- Witness for `calculate_zoom_floor_min_log_clamped` at the unit extent. -/
theorem calculate_zoom_floor_min_log_clamped_witness :
    ((0 : ℚ) < 1) ∧ ((0 : ℚ) < 1) ∧
    (calculate_zoom_for_extent 0 0 1 1 3600 2700 =
      max 0 (min (min (Int.log 2 (zoomConst * 3600 / ((1 : ℚ) - 0)))
        (Int.log 2 (zoomConst * 2700 / ((1 : ℚ) - 0)))) 18) ∧
    (2 : ℚ) ^ min (Int.log 2 (zoomConst * 3600 / ((1 : ℚ) - 0)))
        (Int.log 2 (zoomConst * 2700 / ((1 : ℚ) - 0))) ≤
      min (zoomConst * 3600 / ((1 : ℚ) - 0)) (zoomConst * 2700 / ((1 : ℚ) - 0)) ∧
    min (zoomConst * 3600 / ((1 : ℚ) - 0)) (zoomConst * 2700 / ((1 : ℚ) - 0)) <
      (2 : ℚ) ^ (min (Int.log 2 (zoomConst * 3600 / ((1 : ℚ) - 0)))
        (Int.log 2 (zoomConst * 2700 / ((1 : ℚ) - 0))) + 1)) :=
  ⟨by norm_num, by norm_num,
    calculate_zoom_floor_min_log_clamped 0 0 1 1 (by norm_num) (by norm_num)⟩

/-! ## Claim C8 -/

/-- C8: the computed zoom always lies in `[0, 18]`, and it is monotonically
non-increasing in the extent's size: if one extent's width and height are both
at least those of another, its zoom is lower or equal. -/
theorem zoom_clamped_and_antitone (x1 y1 X1 Y1 x2 y2 X2 Y2 : ℚ)
    (h1x : x1 < X1) (h1y : y1 < Y1) (h2x : x2 < X2) (h2y : y2 < Y2)
    (hw : X1 - x1 ≤ X2 - x2) (hh : Y1 - y1 ≤ Y2 - y2) :
    (0 ≤ calculate_zoom_for_extent x1 y1 X1 Y1 3600 2700 ∧
      calculate_zoom_for_extent x1 y1 X1 Y1 3600 2700 ≤ 18) ∧
    calculate_zoom_for_extent x2 y2 X2 Y2 3600 2700 ≤
      calculate_zoom_for_extent x1 y1 X1 Y1 3600 2700 := by
  have hd1x : (0 : ℚ) < X1 - x1 := sub_pos.mpr h1x
  have hd1y : (0 : ℚ) < Y1 - y1 := sub_pos.mpr h1y
  have hlon : zoomConst * 3600 / (X2 - x2) ≤ zoomConst * 3600 / (X1 - x1) :=
    div_le_div_of_nonneg_left (by norm_num [zoomConst]) hd1x hw
  have hlat : zoomConst * 2700 / (Y2 - y2) ≤ zoomConst * 2700 / (Y1 - y1) :=
    div_le_div_of_nonneg_left (by norm_num [zoomConst]) hd1y hh
  have hlon2 : (0 : ℚ) < zoomConst * 3600 / (X2 - x2) :=
    div_pos (by norm_num [zoomConst]) (sub_pos.mpr h2x)
  have hlat2 : (0 : ℚ) < zoomConst * 2700 / (Y2 - y2) :=
    div_pos (by norm_num [zoomConst]) (sub_pos.mpr h2y)
  have hmonl : Int.log 2 (zoomConst * 3600 / (X2 - x2)) ≤
      Int.log 2 (zoomConst * 3600 / (X1 - x1)) := Int.log_mono_right hlon2 hlon
  have hmonh : Int.log 2 (zoomConst * 2700 / (Y2 - y2)) ≤
      Int.log 2 (zoomConst * 2700 / (Y1 - y1)) := Int.log_mono_right hlat2 hlat
  have hmin : min (Int.log 2 (zoomConst * 3600 / (X2 - x2)))
      (Int.log 2 (zoomConst * 2700 / (Y2 - y2))) ≤
      min (Int.log 2 (zoomConst * 3600 / (X1 - x1)))
        (Int.log 2 (zoomConst * 2700 / (Y1 - y1))) := min_le_min hmonl hmonh
  simp only [calculate_zoom_for_extent]
  omega

/-- Witness for `zoom_clamped_and_antitone`: the unit extent inside a double
extent. -/
theorem zoom_clamped_and_antitone_witness :
    ((0 : ℚ) < 1) ∧ ((0 : ℚ) < 2) ∧ ((1 : ℚ) - 0 ≤ 2 - 0) ∧
    ((0 ≤ calculate_zoom_for_extent 0 0 1 1 3600 2700 ∧
      calculate_zoom_for_extent 0 0 1 1 3600 2700 ≤ 18) ∧
    calculate_zoom_for_extent 0 0 2 2 3600 2700 ≤
      calculate_zoom_for_extent 0 0 1 1 3600 2700) :=
  ⟨by norm_num, by norm_num, by norm_num,
    zoom_clamped_and_antitone 0 0 1 1 0 0 2 2 (by norm_num) (by norm_num)
      (by norm_num) (by norm_num) (by norm_num) (by norm_num)⟩

/-- All correctness facts about `adjust_bounds_to_ratio` at the 4:3 target
ratio used by `generate_map`: the adjusted box has exactly a 4:3 width:height
ratio, the same center as the input box, and each adjusted bound is at least as
far from the center as the corresponding input bound. -/
theorem adjust_bounds_props (xmin ymin xmax ymax a b c d : ℚ)
    (hx : xmin < xmax) (hy : ymin < ymax)
    (h : adjust_bounds_to_ratio xmin ymin xmax ymax (4 / 3) = (a, b, c, d)) :
    (c - a) / (d - b) = 4 / 3 ∧ a + c = xmin + xmax ∧ b + d = ymin + ymax ∧
    a ≤ xmin ∧ xmax ≤ c ∧ b ≤ ymin ∧ ymax ≤ d := by
  have hw : (0 : ℚ) < xmax - xmin := sub_pos.mpr hx
  have hh : (0 : ℚ) < ymax - ymin := sub_pos.mpr hy
  simp only [adjust_bounds_to_ratio] at h
  split_ifs at h with h1 h2 <;> simp only [Prod.mk.injEq] at h
  · have h1' : 4 * (ymax - ymin) < 3 * (xmax - xmin) := by
      rw [gt_iff_lt, div_lt_div_iff₀ (by norm_num) hh] at h1
      linarith
    obtain ⟨ha, hb, hc, hd⟩ := h
    subst ha hb hc hd
    refine ⟨?_, by ring, by ring, le_refl _, le_refl _, by linarith, by linarith⟩
    rw [show (ymin + ymax) / 2 + (xmax - xmin) / (4 / 3) / 2 -
      ((ymin + ymax) / 2 - (xmax - xmin) / (4 / 3) / 2) = (xmax - xmin) * (3 / 4) by ring]
    rw [div_eq_iff (by linarith)]
    ring
  · have h2' : 3 * (xmax - xmin) < 4 * (ymax - ymin) := by
      rw [div_lt_div_iff₀ hh (by norm_num)] at h2
      linarith
    obtain ⟨ha, hb, hc, hd⟩ := h
    subst ha hb hc hd
    refine ⟨?_, by ring, by ring, by linarith, by linarith, le_refl _, le_refl _⟩
    rw [show (xmin + xmax) / 2 + (ymax - ymin) * (4 / 3) / 2 -
      ((xmin + xmax) / 2 - (ymax - ymin) * (4 / 3) / 2) = (ymax - ymin) * (4 / 3) by ring]
    rw [div_eq_iff hh.ne']
    ring
  · have h3 : (xmax - xmin) / (ymax - ymin) = 4 / 3 := le_antisymm (not_lt.mp h1) (not_lt.mp h2)
    obtain ⟨ha, hb, hc, hd⟩ := h
    subst ha hb hc hd
    exact ⟨h3, rfl, rfl, le_refl _, le_refl _, le_refl _, le_refl _⟩

/-! ## Claim C2 -/

/-- C2: for every input box with positive width and height, the box returned by
`adjust_bounds_to_ratio` at the 4:3 target has width:height ratio exactly 4:3
(the rational model is exact, hence within any floating-point tolerance), has
the same center as the input box, and each returned bound is at least as far
from the center as the corresponding input bound: the box only grows. -/
theorem adjust_bounds_to_ratio_correct (xmin ymin xmax ymax a b c d : ℚ)
    (hx : xmin < xmax) (hy : ymin < ymax)
    (h : adjust_bounds_to_ratio xmin ymin xmax ymax (4 / 3) = (a, b, c, d)) :
    (c - a) / (d - b) = 4 / 3 ∧ a + c = xmin + xmax ∧ b + d = ymin + ymax ∧
    a ≤ xmin ∧ xmax ≤ c ∧ b ≤ ymin ∧ ymax ≤ d :=
  adjust_bounds_props xmin ymin xmax ymax a b c d hx hy h

/-- Witness for `adjust_bounds_to_ratio_correct` on the tall box `(0, 0, 1, 3)`,
which is widened to `(-3/2, 0, 5/2, 3)`. -/
theorem adjust_bounds_to_ratio_correct_witness :
    ((0 : ℚ) < 1) ∧ ((0 : ℚ) < 3) ∧
    (adjust_bounds_to_ratio 0 0 1 3 (4 / 3) = (-(3 / 2), 0, 5 / 2, 3)) ∧
    (((5 : ℚ) / 2 - -(3 / 2)) / ((3 : ℚ) - 0) = 4 / 3 ∧
      -(3 / 2) + 5 / 2 = (0 : ℚ) + 1 ∧ (0 : ℚ) + 3 = 0 + 3 ∧
      -(3 / 2) ≤ (0 : ℚ) ∧ (1 : ℚ) ≤ 5 / 2 ∧ (0 : ℚ) ≤ 0 ∧ (3 : ℚ) ≤ 3) :=
  ⟨by norm_num, by norm_num, by norm_num [adjust_bounds_to_ratio],
    adjust_bounds_to_ratio_correct 0 0 1 3 (-(3 / 2)) 0 (5 / 2) 3
      (by norm_num) (by norm_num) (by norm_num [adjust_bounds_to_ratio])⟩

/-- When either window bound is missing, one loop iteration keeps a point
exactly when it has a timestamp. -/
theorem filterPoint_no_window (s e : Option ℤ) (hse : s = none ∨ e = none)
    (p : GPXPoint) :
    filterPoint s e p =
      if p.time.isSome then some (p.longitude, p.latitude) else none := by
  rcases hse with h | h
  · subst h; cases e <;> cases hp : p.time <;> simp [filterPoint, hp]
  · subst h; cases s <;> cases hp : p.time <;> simp [filterPoint, hp]

/-- When either window bound is missing, the point loop keeps exactly the
timestamped points, in order. -/
theorem filterMap_no_window (s e : Option ℤ) (hse : s = none ∨ e = none)
    (l : List GPXPoint) :
    l.filterMap (filterPoint s e) =
      (l.filter fun p => p.time.isSome).map fun p => (p.longitude, p.latitude) := by
  induction l with
  | nil => rfl
  | cons p l ih =>
    rw [List.filterMap_cons, List.filter_cons, filterPoint_no_window s e hse p]
    cases hp : p.time.isSome <;> simp [hp, ih]

/-- With both window bounds given, the point loop keeps exactly the timestamped
points whose time lies in the inclusive window, in order. -/
theorem filterMap_window_eq (s e : ℤ) (l : List GPXPoint) :
    l.filterMap (filterPoint (some s) (some e)) =
      (l.filter fun p =>
        match p.time with
        | some t => decide (s ≤ t ∧ t ≤ e)
        | none => false).map fun p => (p.longitude, p.latitude) := by
  induction l with
  | nil => rfl
  | cons p l ih =>
    rw [List.filterMap_cons, List.filter_cons]
    cases hp : p.time with
    | none => simp [filterPoint, hp, ih]
    | some t =>
      by_cases hw : s ≤ t ∧ t ≤ e
      · simp [filterPoint, hp, hw, ih]
      · simp [filterPoint, hp, hw, ih]

/-! ## Claim C3 -/

/-- A GPX file with one timestamped and one untimestamped point. -/
def gpxC3 : GPX := ⟨[⟨[⟨[⟨1, 2, some 10⟩, ⟨0, 0, none⟩]⟩]⟩]⟩

/-- C3, counterexample to the claim as stated: with no window given, the point
without a timestamp is dropped by the `if p.time:` guard, so the produced list
is not all of the track's points. -/
theorem load_points_drops_untimed_points_cex :
    loadPoints none none gpxC3 = [(1, 2)] ∧
    gpxC3.allPoints.map (fun p => (p.longitude, p.latitude)) = [(1, 2), (0, 0)] ∧
    loadPoints none none gpxC3 ≠
      gpxC3.allPoints.map (fun p => (p.longitude, p.latitude)) := by
  refine ⟨rfl, rfl, ?_⟩
  decide

/-- C3 (amended): with both window bounds given, the produced point list is
exactly, and in order, the coordinates of the track's timestamped points whose
France-naive time lies in the inclusive window; with no window given, it is
exactly the coordinates of the timestamped points, in order — points without a
timestamp are always dropped, window or not. -/
theorem load_points_time_filter_correct (g : GPX) (s e : ℤ) :
    loadPoints (some s) (some e) g =
      (g.allPoints.filter fun p =>
        match p.time with
        | some t => decide (s ≤ t ∧ t ≤ e)
        | none => false).map (fun p => (p.longitude, p.latitude)) ∧
    loadPoints none none g =
      (g.allPoints.filter fun p => p.time.isSome).map
        (fun p => (p.longitude, p.latitude)) :=
  ⟨filterMap_window_eq s e g.allPoints,
    filterMap_no_window none none (Or.inl rfl) g.allPoints⟩

/-! ## Claim C4 -/

/-- C4: `generate_map` surfaces the fatal insufficient-data `ValueError`
exactly when fewer than 2 points survive the time filter; with 2 or more
surviving points it does not raise it and proceeds with the surviving point
list. -/
theorem insufficient_points_error_iff_lt_two (s e : Option ℤ) (g : GPX) :
    ((∃ msg, generateMapPoints s e g = Except.error msg) ↔
      (loadPoints s e g).length < 2) ∧
    (2 ≤ (loadPoints s e g).length →
      generateMapPoints s e g = Except.ok (loadPoints s e g)) := by
  simp only [generateMapPoints]
  split_ifs with hlen
  · exact ⟨⟨fun _ => hlen, fun _ => ⟨_, rfl⟩⟩, fun h2 => absurd hlen (by omega)⟩
  · refine ⟨⟨?_, fun h => absurd h hlen⟩, fun _ => rfl⟩
    rintro ⟨msg, hmsg⟩
    cases hmsg

/-- A GPX file with two timestamped points. -/
def gpxC4 : GPX := ⟨[⟨[⟨[⟨0, 0, some 1⟩, ⟨1, 1, some 2⟩]⟩]⟩]⟩

/-- Witness for `insufficient_points_error_iff_lt_two`: a two-point track
passes the check. -/
theorem insufficient_points_error_iff_lt_two_witness :
    2 ≤ (loadPoints none none gpxC4).length ∧
    generateMapPoints none none gpxC4 = Except.ok (loadPoints none none gpxC4) :=
  ⟨by decide, (insufficient_points_error_iff_lt_two none none gpxC4).2 (by decide)⟩

/-! ## Claim C10 -/

/-- C10: if exactly one of the two window bounds is missing, the time filter is
disabled entirely: the produced list equals the no-window list, which keeps
every timestamped point regardless of the one bound that was given. -/
theorem single_bound_disables_time_filter (g : GPX) (s e : ℤ) :
    loadPoints (some s) none g = loadPoints none none g ∧
    loadPoints none (some e) g = loadPoints none none g := by
  constructor
  · rw [loadPoints, loadPoints, filterMap_no_window (some s) none (Or.inr rfl),
      filterMap_no_window none none (Or.inl rfl)]
  · rw [loadPoints, loadPoints, filterMap_no_window none (some e) (Or.inl rfl),
      filterMap_no_window none none (Or.inl rfl)]

/-! ## Claim C5 -/

/-- C5, counterexample to the claim as stated: with buffered bounds
`(0, 0, 1, 3)` the final ratio-adjusted extent is `(-3/2, 0, 5/2, 3)`; the
resolved city coordinate `(2, 1)` lies inside that final extent, yet the code
tests it against the buffered bounds and drops it. -/
theorem city_filter_pre_adjust_cex :
    finalExtent 0 0 1 3 = (-(3 / 2), 0, 5 / 2, 3) ∧
    is_contained (-(3 / 2)) 0 (5 / 2) 3 2 1 = true ∧
    retainedCities 0 0 1 3 [("ville", 2, 1)] = [] := by
  refine ⟨by norm_num [finalExtent, adjust_bounds_to_ratio], ?_, ?_⟩
  · norm_num [is_contained]
  · norm_num [retainedCities, is_contained, List.filter_cons]

/-- C5 (amended): the containment test runs against the buffered
(pre-ratio-adjustment) extent: a resolved city coordinate is retained exactly
when it lies inside the buffered bounds.  Since the final ratio-adjusted extent
only grows from those bounds, a coordinate strictly outside the FINAL extent is
still always dropped; but a coordinate inside the final extent and outside the
buffered bounds is dropped too, contrary to the original claim. -/
theorem city_filter_buffered_bounds_correct (xmin ymin xmax ymax a b c d : ℚ)
    (hx : xmin < xmax) (hy : ymin < ymax)
    (hf : finalExtent xmin ymin xmax ymax = (a, b, c, d))
    (cities : List (String × ℚ × ℚ)) (ct : String × ℚ × ℚ) :
    (ct ∈ retainedCities xmin ymin xmax ymax cities ↔
      ct ∈ cities ∧ is_contained xmin ymin xmax ymax ct.2.1 ct.2.2 = true) ∧
    (is_contained a b c d ct.2.1 ct.2.2 = false →
      ct ∉ retainedCities xmin ymin xmax ymax cities) := by
  have hmem : ct ∈ retainedCities xmin ymin xmax ymax cities ↔
      ct ∈ cities ∧ is_contained xmin ymin xmax ymax ct.2.1 ct.2.2 = true := by
    simp [retainedCities, List.mem_filter]
  refine ⟨hmem, fun hout hin => ?_⟩
  obtain ⟨-, hcont⟩ := hmem.mp hin
  obtain ⟨hratio, hcx, hcy, hga, hgc, hgb, hgd⟩ :=
    adjust_bounds_props xmin ymin xmax ymax a b c d hx hy hf
  simp only [is_contained, Bool.and_eq_true, decide_eq_true_eq] at hcont
  simp only [is_contained, Bool.and_eq_false_iff, decide_eq_false_iff_not] at hout
  obtain ⟨⟨h1, h2⟩, h3, h4⟩ := hcont
  rcases hout with hout | hout <;>
    exact hout ⟨by linarith, by linarith⟩

/-- Witness for `city_filter_buffered_bounds_correct` on the buffered bounds
`(0, 0, 1, 3)` and the city coordinate `(1/2, 1)` inside them. -/
theorem city_filter_buffered_bounds_correct_witness :
    ((0 : ℚ) < 1) ∧ ((0 : ℚ) < 3) ∧
    (finalExtent 0 0 1 3 = (-(3 / 2), 0, 5 / 2, 3)) ∧
    ((("v", 1 / 2, 1) ∈ retainedCities 0 0 1 3 [("v", 1 / 2, 1)] ↔
      ("v", 1 / 2, 1) ∈ [(("v", 1 / 2, 1) : String × ℚ × ℚ)] ∧
        is_contained 0 0 1 3 (1 / 2) 1 = true) ∧
    (is_contained (-(3 / 2)) 0 (5 / 2) 3 (1 / 2) 1 = false →
      ("v", 1 / 2, 1) ∉ retainedCities 0 0 1 3 [("v", 1 / 2, 1)])) :=
  ⟨by norm_num, by norm_num, by norm_num [finalExtent, adjust_bounds_to_ratio],
    city_filter_buffered_bounds_correct 0 0 1 3 (-(3 / 2)) 0 (5 / 2) 3
      (by norm_num) (by norm_num)
      (by norm_num [finalExtent, adjust_bounds_to_ratio])
      [("v", 1 / 2, 1)] ("v", 1 / 2, 1)⟩

/-! ## Claim C6 -/

/-- A GPX file whose first point's time is 100. -/
def gpxC6 : GPX := ⟨[⟨[⟨[⟨0, 0, some 100⟩, ⟨1, 1, some 200⟩]⟩]⟩]⟩

/-- The empty GPX file. -/
def gpxEmpty : GPX := ⟨[]⟩

/-- C6, counterexample to the claim as stated: with no reference image and the
window `[50, 300]`, both points survive and the track's first surviving point
has time 100, but the embedded timestamp is the caller's window start bound 50,
not the track's start time. -/
theorem exif_start_time_not_track_time_cex :
    embeddedMetadata (some 50) (some 300) none gpxC6 = some (50, 5) ∧
    firstSurvivingTime (some 50) (some 300) gpxC6 = some 100 ∧
    (50 : ℤ) ≠ 100 := by
  refine ⟨rfl, ?_, by decide⟩
  norm_num [firstSurvivingTime, gpxC6, GPX.allPoints, filterPoint,
    List.filter_cons]

/-- C6 (amended): the metadata embedded by `generate_map` is independent of the
track; with a usable reference image the embedded timestamp is the image's
timestamp (EXIF date, falling back to the file creation time) minus 10 seconds;
with no reference image it is the caller-supplied window start bound when one
was given, and nothing is embedded otherwise; whenever a timestamp is embedded,
the fixed maximum rating 5 is embedded with it. -/
theorem set_exif_metadata_correct (s e : Option ℤ) (ref : Option RefImage)
    (g g2 : GPX) :
    embeddedMetadata s e ref g = embeddedMetadata s e ref g2 ∧
    (∀ r, ref = some r →
      embeddedMetadata s e ref g = some (r.exifDate.getD r.ctime - 10, 5)) ∧
    (ref = none → embeddedMetadata s e ref g = s.map fun st => (st, 5)) ∧
    (∀ dt rating, embeddedMetadata s e ref g = some (dt, rating) →
      rating = 5) := by
  refine ⟨rfl, ?_, ?_, ?_⟩
  · rintro r rfl
    rfl
  · rintro rfl
    cases s <;> rfl
  · intro dt rating h
    cases ref with
    | some r =>
      simp only [embeddedMetadata, set_exif_date_piexif, Option.some.injEq,
        Prod.mk.injEq] at h
      exact h.2.symm
    | none =>
      cases s with
      | none => simp [embeddedMetadata, set_exif_date_piexif] at h
      | some st =>
        simp only [embeddedMetadata, set_exif_date_piexif, Option.some.injEq,
          Prod.mk.injEq] at h
        exact h.2.symm

/-- A reference image with EXIF date 1000. -/
def refC6 : RefImage := ⟨some 1000, 500⟩

/-- Witness for `set_exif_metadata_correct`, applying each part at concrete
inputs. -/
theorem set_exif_metadata_correct_witness :
    (embeddedMetadata (some 50) (some 300) none gpxC6 =
      embeddedMetadata (some 50) (some 300) none gpxEmpty) ∧
    (embeddedMetadata (some 50) (some 300) (some refC6) gpxC6 =
      some (refC6.exifDate.getD refC6.ctime - 10, 5)) ∧
    (embeddedMetadata (some 50) (some 300) none gpxC6 =
      (some (50 : ℤ)).map fun st => (st, 5)) ∧
    ((5 : ℕ) = 5) :=
  ⟨(set_exif_metadata_correct (some 50) (some 300) none gpxC6 gpxEmpty).1,
    (set_exif_metadata_correct (some 50) (some 300) (some refC6) gpxC6
      gpxEmpty).2.1 refC6 rfl,
    (set_exif_metadata_correct (some 50) (some 300) none gpxC6 gpxEmpty).2.2.1
      rfl,
    (set_exif_metadata_correct (some 50) (some 300) none gpxC6
      gpxEmpty).2.2.2 50 5 rfl⟩

/-! ## Claim C7 -/

/-- C7: `geocode_city` always issues the bounded (viewbox) query first, issues
the unconstrained global query exactly when the bounded query returned an empty
result list, and on a failed request returns `None` rather than raising, so a
per-city failure cannot abort the pipeline (the embedding is a total function;
every exception path yields `none`). -/
theorem geocode_city_fallback_correct (b g : GeoResponse) :
    ((geocode_city b g).2.head? = some GeoQuery.bounded) ∧
    (GeoQuery.global ∈ (geocode_city b g).2 ↔ b = Except.ok []) ∧
    (∀ err, b = Except.error err → (geocode_city b g).1 = none) ∧
    (b = Except.ok [] → ∀ err, g = Except.error err →
      (geocode_city b g).1 = none) := by
  rcases b with err | (_ | ⟨c, rest⟩)
  · refine ⟨rfl, by simp [geocode_city], fun _ _ => rfl, ?_⟩
    intro h
    simp at h
  · rcases g with gerr | (_ | ⟨c2, rest2⟩)
    · refine ⟨rfl, by simp [geocode_city], ?_, fun _ _ _ => rfl⟩
      intro e2 h
      simp at h
    · refine ⟨rfl, by simp [geocode_city], ?_, ?_⟩
      · intro e2 h
        simp at h
      · intro _ e2 h
        simp at h
    · refine ⟨rfl, by simp [geocode_city], ?_, ?_⟩
      · intro e2 h
        simp at h
      · intro _ e2 h
        simp at h
  · refine ⟨rfl, by simp [geocode_city], ?_, ?_⟩
    · intro e2 h
      simp at h
    · intro h
      simp at h

/-- Witness for `geocode_city_fallback_correct`: an empty bounded result
followed by a failed global request issues both queries and yields no
coordinate. -/
theorem geocode_city_fallback_correct_witness :
    ((geocode_city (Except.ok []) (Except.error ())).2.head? =
      some GeoQuery.bounded) ∧
    (GeoQuery.global ∈ (geocode_city (Except.ok []) (Except.error ())).2) ∧
    ((geocode_city (Except.ok []) (Except.error ())).1 = none) :=
  ⟨(geocode_city_fallback_correct (Except.ok []) (Except.error ())).1,
    (geocode_city_fallback_correct (Except.ok []) (Except.error ())).2.1.mpr
      rfl,
    (geocode_city_fallback_correct (Except.ok []) (Except.error ())).2.2.2
      rfl () rfl⟩

/-! ## Claim C9 -/

/-- The index-selection fold of `draw_arrows` computes the greedy walk, with
any starting accumulator. -/
theorem arrow_foldl_eq_walk (ms : ℚ) (l : List (ℕ × ℚ)) (acc : List ℕ)
    (last_d : ℚ) :
    (l.foldl (fun (st : List ℕ × ℚ) (p : ℕ × ℚ) =>
      if p.2 - st.2 ≥ ms then (st.1 ++ [p.1], p.2) else st) (acc, last_d)).1 =
      acc ++ specArrowWalk ms l last_d := by
  induction l generalizing acc last_d with
  | nil => simp [specArrowWalk]
  | cons p rest ih =>
    by_cases hp : p.2 - last_d ≥ ms
    · simp [List.foldl_cons, hp, specArrowWalk, ih]
    · simp [List.foldl_cons, hp, specArrowWalk, ih]

/-- C9, counterexample to the claim as stated: on the cumulative distances
`[0, 1000, 2000]` (three collinear vertices 1000 m apart) at zoom 12, where the
spacing threshold is exactly `1000 / 2 ^ (12 - 12) = 1000`, the code's `>=`
test emits vertex 1, while the claim's strict "exceeds" reading skips it. -/
theorem arrow_selection_strict_threshold_cex :
    arrowSpacing 12 = 1000 ∧
    draw_arrows_indices [0, 1000, 2000] (arrowSpacing 12) = [0, 1, 2, 2] ∧
    claimed_arrow_indices [0, 1000, 2000] (arrowSpacing 12) = [0, 2, 2] ∧
    draw_arrows_indices [0, 1000, 2000] (arrowSpacing 12) ≠
      claimed_arrow_indices [0, 1000, 2000] (arrowSpacing 12) := by
  have hs : arrowSpacing 12 = 1000 := by norm_num [arrowSpacing]
  rw [hs]
  refine ⟨rfl, ?_, ?_, ?_⟩
  · norm_num [draw_arrows_indices, List.enum, List.enumFrom, List.foldl_cons]
  · norm_num [claimed_arrow_indices, List.enum, List.enumFrom, List.foldl_cons]
  · norm_num [draw_arrows_indices, claimed_arrow_indices, List.enum,
      List.enumFrom, List.foldl_cons]

/-- C9 (amended): `draw_arrows` selects arrow-segment endpoints by the greedy
cumulative-distance walk, emitting a vertex whenever the accumulated distance
since the last emitted vertex meets or EXCEEDS the spacing threshold (the code
compares with `>=`, not strictly), and the selected index list always starts
with the first vertex 0 and ends with the last vertex `len - 1`. -/
theorem arrow_selection_walk_correct (cumdist : List ℚ) (ms : ℚ) :
    draw_arrows_indices cumdist ms =
      (0 :: specArrowWalk ms cumdist.enum 0) ++ [cumdist.length - 1] ∧
    (draw_arrows_indices cumdist ms).head? = some 0 ∧
    (draw_arrows_indices cumdist ms).getLast? =
      some (cumdist.length - 1) := by
  have heq : draw_arrows_indices cumdist ms =
      (0 :: specArrowWalk ms cumdist.enum 0) ++ [cumdist.length - 1] := by
    simp only [draw_arrows_indices]
    rw [arrow_foldl_eq_walk]
    simp
  refine ⟨heq, ?_, ?_⟩
  · rw [heq, List.cons_append]
    rfl
  · rw [heq, List.getLast?_concat]

end Photos
